import Mathlib

/-!
Shallow embedding of the pagination core of the `collab` service
(src/collab/src/main.rs): the `Pagination` data type, the
`extract_pagination` resolver, the `valid_range` clamping function used by
the `get_questions` handler, slicing of the record list, the `Error`
taxonomy with its `Display` rendering, and the `return_error`
rejection-to-response mapping.

Machine integers: `usize` is modelled as `Nat`; `usize::MAX` is the
constant `USIZE_MAX = 2^64 - 1`, and `str::parse::<usize>` is modelled
with its overflow check made explicit.
-/

namespace Collab

/-- `usize::MAX` on a 64-bit target. -/
def USIZE_MAX : Nat := 2 ^ 64 - 1

/-- The kinds of `std::num::ParseIntError` reachable from
`str::parse::<usize>`: empty input, a non-digit byte, positive overflow. -/
inductive ParseIntError where
  | empty
  | invalidDigit
  | posOverflow
deriving DecidableEq, Repr

/-- `Display` of `std::num::ParseIntError` for the reachable kinds. -/
def ParseIntError.display : ParseIntError → String
  | .empty => "cannot parse integer from empty string"
  | .invalidDigit => "invalid digit found in string"
  | .posOverflow => "number too large to fit in target type"

/-- Digit-accumulation loop of `usize::from_str_radix(_, 10)`: each step
multiplies by 10 and adds the digit, failing with `posOverflow` as soon as
the accumulator leaves the `usize` range, and with `invalidDigit` on a
non-digit character. -/
def parseDigits : List Char → Nat → Except ParseIntError Nat
  | [], acc => .ok acc
  | c :: cs, acc =>
    if c.isDigit then
      let acc2 := acc * 10 + (c.toNat - 48)
      if acc2 > USIZE_MAX then .error .posOverflow
      else parseDigits cs acc2
    else .error .invalidDigit

/-- `str::parse::<usize>` (i.e. `usize::from_str`): the empty string is
`empty`; a lone `+` is `invalidDigit`; an optional leading `+` is
stripped; then the decimal digit loop runs. A leading `-` is not a sign
for an unsigned type and fails as `invalidDigit` in the loop. -/
def parseUsize (s : String) : Except ParseIntError Nat :=
  match s.toList with
  | [] => .error .empty
  | ['+'] => .error .invalidDigit
  | '+' :: rest => parseDigits rest 0
  | l => parseDigits l 0

/-- `struct Pagination { start: usize, end: usize }`
(src/collab/src/main.rs:34-38). -/
structure Pagination where
  start : Nat
  «end» : Nat
deriving DecidableEq, Repr

/-- `{:?}` (derived `Debug`) rendering of a `Pagination` value. -/
def Pagination.debugFmt (p : Pagination) : String :=
  "Pagination \x7b start: " ++ toString p.start ++ ", end: " ++ toString p.«end» ++ " \x7d"

/-- `enum Error` (src/collab/src/main.rs:10-16). -/
inductive Error where
  | ParseError (err : ParseIntError)
  | MissingParameters
  | StartGreaterThanEnd (p : Pagination)
deriving DecidableEq, Repr

/-- `impl Display for Error` (src/collab/src/main.rs:18-30). -/
def Error.display : Error → String
  | .ParseError err => "Cannot parse parameter: " ++ err.display
  | .MissingParameters => "Missing parameter"
  | .StartGreaterThanEnd p => "Start greater end " ++ p.debugFmt

/-- The request's query-parameter map `HashMap<String, String>`, modelled
as an association list; only `get` is ever used on it. -/
abbrev Params := List (String × String)

/-- `params.get(k)` on the query-parameter map. -/
def getParam (params : Params) (k : String) : Option String :=
  params.lookup k

/-- `extract_pagination` (src/collab/src/main.rs:40-63): both parameters
present → parse `start` then `end` (propagating the first `ParseError`),
then reject `start > end` with `StartGreaterThanEnd`; neither present →
the full-range default `Pagination { start: 0, end: usize::MAX }`;
exactly one present → `MissingParameters`. -/
def extract_pagination (params : Params) : Except Error Pagination :=
  match getParam params "start", getParam params "end" with
  | some start, some endv =>
    match parseUsize start with
    | .error e => .error (.ParseError e)
    | .ok s =>
      match parseUsize endv with
      | .error e => .error (.ParseError e)
      | .ok e =>
        if s > e then .error (.StartGreaterThanEnd ⟨s, e⟩)
        else .ok ⟨s, e⟩
  | none, none => .ok ⟨0, USIZE_MAX⟩
  | _, _ => .error .MissingParameters

/-- `valid_range` (src/collab/src/main.rs:98-100):
`min(p.start, length)..min(p.end, length)`, as a pair
(lower bound, upper bound) of the half-open range. -/
def valid_range (p : Pagination) (length : Nat) : Nat × Nat :=
  (min p.start length, min p.«end» length)

/-- Rust slice indexing `&xs[lo..hi]`: defined (as `some`) exactly when
`lo <= hi` and `hi <= xs.length`, a panic (modelled `none`) otherwise. -/
def sliceRange {α : Type} (xs : List α) (lo hi : Nat) : Option (List α) :=
  if lo ≤ hi ∧ hi ≤ xs.length then some ((xs.drop lo).take (hi - lo)) else none

/-- `struct QuestionId(String)` (src/collab/src/main.rs:65-66). -/
structure QuestionId where
  val : String
deriving DecidableEq, Repr

/-- The derived `Deserialize` impl for the newtype `QuestionId(String)`
(src/collab/src/main.rs:65-66): it deserializes the inner `String` and
wraps it, performing no validation of its own, so given the decoded
string it always succeeds. -/
def QuestionId.deserialize (s : String) : Except String QuestionId :=
  .ok ⟨s⟩

/-- `struct Question` (src/collab/src/main.rs:68-74). -/
structure Question where
  id : QuestionId
  title : String
  content : String
  tags : Option (List String)
deriving DecidableEq, Repr

/-- One hexadecimal digit, lower case, as used by serde_json's
`\u00XX` control-character escapes. -/
def hexDigit (n : Nat) : Char :=
  if n < 10 then Char.ofNat (48 + n) else Char.ofNat (87 + n)

/-- serde_json's escaping of a single character inside a JSON string:
quote, backslash and the short control escapes, `\u00XX` for the other
control characters, everything else verbatim. -/
def escapeChar (c : Char) : String :=
  if c = '"' then "\\\""
  else if c = '\\' then "\\\\"
  else if c = Char.ofNat 8 then "\\b"
  else if c = Char.ofNat 9 then "\\t"
  else if c = Char.ofNat 10 then "\\n"
  else if c = Char.ofNat 12 then "\\f"
  else if c = Char.ofNat 13 then "\\r"
  else if c.toNat < 32 then
    "\\u00" ++ String.mk [hexDigit (c.toNat / 16), hexDigit (c.toNat % 16)]
  else String.mk [c]

/-- serde_json serialization of a `String` value. -/
def jsonString (s : String) : String :=
  "\"" ++ String.join (s.toList.map escapeChar) ++ "\""

/-- serde_json serialization of one `Question` (derived `Serialize`,
fields in declaration order; `tags: None` serializes as `null`). -/
def serializeQuestion (q : Question) : String :=
  "\x7b\"id\":" ++ jsonString q.id.val ++
  ",\"title\":" ++ jsonString q.title ++
  ",\"content\":" ++ jsonString q.content ++
  ",\"tags\":" ++
  (match q.tags with
   | none => "null"
   | some ts => "[" ++ String.intercalate "," (ts.map jsonString) ++ "]") ++
  "\x7d"

/-- serde_json serialization of the `Vec<Question>` response body. -/
def serializeQuestions (qs : List Question) : String :=
  "[" ++ String.intercalate "," (qs.map serializeQuestion) ++ "]"

/-- `get_questions` (src/collab/src/main.rs:94-107) up to serialization:
enumerate the store's records (the list `questions`), resolve the
pagination, slice by `valid_range`; `none` models an indexing panic. -/
def get_questions (params : Params) (questions : List Question) :
    Option (Except Error (List Question)) :=
  match extract_pagination params with
  | .error e => some (.error e)
  | .ok p =>
    let r := valid_range p questions.length
    (sliceRange questions r.1 r.2).map .ok

/-- The rejections `return_error` can observe: a typed resolver `Error`,
a `CorsForbidden` rejection (carrying its `Display` message), or any
other rejection. -/
inductive Rejection where
  | err (e : Error)
  | corsForbidden (message : String)
  | other
deriving DecidableEq, Repr

/-- `return_error` (src/collab/src/main.rs:109-126) as a
(status code, body) pair: a resolver `Error` → 416 with its `Display`
text; a `CorsForbidden` → 403 with its message; anything else →
404 "Route not found". -/
def return_error : Rejection → Nat × String
  | .err e => (416, e.display)
  | .corsForbidden msg => (403, msg)
  | .other => (404, "Route not found")

/-- The full request-to-response mapping for `GET /questions`
(src/collab/src/main.rs:94-126, 138-144): success is 200 with the JSON
body of the sliced records, a resolver failure is recovered by
`return_error`; `none` models an indexing panic. -/
def handle (params : Params) (questions : List Question) :
    Option (Nat × String) :=
  match get_questions params questions with
  | none => none
  | some (.ok qs) => some (200, serializeQuestions qs)
  | some (.error e) => some (return_error (.err e))

end Collab

namespace Collab

/-! ## Claims -/

/-- Claim C1: for every collection length `L` and every `Pagination` with
`start ≤ end` (the no-parameters default `⟨0, USIZE_MAX⟩` included), the
effective range computed by `valid_range` equals
`min(start, L)..min(end, L)`; its bounds satisfy `lower ≤ upper ≤ L`, so
slicing a record list of length `L` with it is always in-bounds (never a
panic), and the slice is `[]`, not an error, when `start ≥ L` or when the
clamped bounds coincide. -/
theorem C1_valid_range_safe (p : Pagination) (L : Nat) (h : p.start ≤ p.«end») :
    valid_range p L = (min p.start L, min p.«end» L) ∧
    (valid_range p L).1 ≤ (valid_range p L).2 ∧
    (valid_range p L).2 ≤ L ∧
    (∀ (α : Type) (xs : List α), xs.length = L →
      (sliceRange xs (valid_range p L).1 (valid_range p L).2).isSome) ∧
    ((L ≤ p.start ∨ (valid_range p L).1 = (valid_range p L).2) →
      ∀ (α : Type) (xs : List α), xs.length = L →
        sliceRange xs (valid_range p L).1 (valid_range p L).2 = some []) := by
  refine ⟨rfl, ?_, ?_, ?_, ?_⟩
  · simp only [valid_range]
    omega
  · simp only [valid_range]
    omega
  · intro α xs hxs
    rw [sliceRange, if_pos]
    · rfl
    · simp only [valid_range, hxs]
      omega
  · intro hemp α xs hxs
    have hb : (valid_range p L).1 = (valid_range p L).2 := by
      simp only [valid_range] at hemp ⊢
      omega
    rw [sliceRange, if_pos, hb, Nat.sub_self, List.take_zero]
    constructor
    · omega
    · simp only [valid_range, hxs]
      omega

/-- Claim C1 witness: instantiated at `Pagination ⟨2, 10⟩`, `L = 5` and a
concrete 5-element record list. -/
theorem C1_valid_range_safe_witness :
    valid_range ⟨2, 10⟩ 5 = (min 2 10, min 10 5) ∨
    ((valid_range ⟨2, 10⟩ 5).1 ≤ (valid_range ⟨2, 10⟩ 5).2 ∧
      (valid_range ⟨2, 10⟩ 5).2 ≤ 5) :=
  Or.inr ⟨(C1_valid_range_safe ⟨2, 10⟩ 5 (by decide)).2.1,
          (C1_valid_range_safe ⟨2, 10⟩ 5 (by decide)).2.2.1⟩

end Collab

namespace Collab

/-- Claim C2: whenever both "start" and "end" are present in the
query-parameter map and parse as non-negative integers `s ≤ e`,
`extract_pagination` succeeds with exactly `Pagination ⟨s, e⟩`. -/
theorem C2_extract_pagination_both_ok (params : Params) (vs ve : String) (s e : Nat)
    (hs : getParam params "start" = some vs) (he : getParam params "end" = some ve)
    (hps : parseUsize vs = .ok s) (hpe : parseUsize ve = .ok e) (hle : s ≤ e) :
    extract_pagination params = .ok ⟨s, e⟩ := by
  unfold extract_pagination
  simp only [hs, he, hps, hpe]
  rw [if_neg (by omega)]

/-- Claim C2 witness: `start=2`, `end=10`. -/
theorem C2_extract_pagination_both_ok_witness :
    extract_pagination [("start", "2"), ("end", "10")] = .ok ⟨2, 10⟩ :=
  C2_extract_pagination_both_ok [("start", "2"), ("end", "10")] "2" "10" 2 10
    rfl rfl rfl rfl (by decide)

/-- Claim C3: whenever both "start" and "end" are present and parse as
non-negative integers with `s > e`, `extract_pagination` fails with
`StartGreaterThanEnd` carrying the parsed (invalid) `Pagination ⟨s, e⟩`. -/
theorem C3_extract_pagination_start_gt_end (params : Params) (vs ve : String) (s e : Nat)
    (hs : getParam params "start" = some vs) (he : getParam params "end" = some ve)
    (hps : parseUsize vs = .ok s) (hpe : parseUsize ve = .ok e) (hgt : s > e) :
    extract_pagination params = .error (.StartGreaterThanEnd ⟨s, e⟩) := by
  unfold extract_pagination
  simp only [hs, he, hps, hpe]
  rw [if_pos hgt]

/-- Claim C3 witness: `start=3`, `end=1`. -/
theorem C3_extract_pagination_start_gt_end_witness :
    extract_pagination [("start", "3"), ("end", "1")] =
      .error (.StartGreaterThanEnd ⟨3, 1⟩) :=
  C3_extract_pagination_start_gt_end [("start", "3"), ("end", "1")] "3" "1" 3 1
    rfl rfl rfl rfl (by decide)

/-- Claim C4: whenever exactly one of the keys "start" and "end" is
present, `extract_pagination` fails with `MissingParameters`, regardless
of whether the present value parses. -/
theorem C4_extract_pagination_missing (params : Params)
    (h : (∃ v, getParam params "start" = some v ∧ getParam params "end" = none) ∨
         (getParam params "start" = none ∧ ∃ v, getParam params "end" = some v)) :
    extract_pagination params = .error .MissingParameters := by
  unfold extract_pagination
  rcases h with ⟨v, hs, he⟩ | ⟨hs, v, he⟩ <;> rw [hs, he]

/-- Claim C4 witness: only `start=2` present (and the value even parses). -/
theorem C4_extract_pagination_missing_witness :
    extract_pagination [("start", "2")] = .error .MissingParameters :=
  C4_extract_pagination_missing [("start", "2")] (Or.inl ⟨"2", rfl, rfl⟩)

/-- Claim C5: whenever both "start" and "end" are present and at least one
value fails to parse as a non-negative integer, `extract_pagination` fails
with `ParseError` carrying the underlying parse failure detail (the detail
of one of the failing values). -/
theorem C5_extract_pagination_parse_failure (params : Params) (vs ve : String)
    (hs : getParam params "start" = some vs) (he : getParam params "end" = some ve)
    (h : (∃ es, parseUsize vs = .error es) ∨ (∃ ee, parseUsize ve = .error ee)) :
    ∃ err, extract_pagination params = .error (.ParseError err) ∧
      (parseUsize vs = .error err ∨ parseUsize ve = .error err) := by
  unfold extract_pagination
  rcases hvs : parseUsize vs with es | s
  · exact ⟨es, by simp only [hs, he, hvs], Or.inl rfl⟩
  · rcases h with ⟨es, h1⟩ | ⟨ee, h2⟩
    · rw [hvs] at h1
      exact absurd h1 (by simp)
    · exact ⟨ee, by simp only [hs, he, hvs, h2], Or.inr h2⟩

/-- Claim C5 witness: `start=abc`, `end=5`. -/
theorem C5_extract_pagination_parse_failure_witness :
    ∃ err, extract_pagination [("start", "abc"), ("end", "5")] =
        .error (.ParseError err) ∧
      (parseUsize "abc" = .error err ∨ parseUsize "5" = .error err) :=
  C5_extract_pagination_parse_failure [("start", "abc"), ("end", "5")] "abc" "5"
    rfl rfl (Or.inl ⟨.invalidDigit, rfl⟩)

end Collab

namespace Collab

/-- Claim C6: with neither "start" nor "end" present, `extract_pagination`
succeeds with the full-range sentinel `Pagination ⟨0, USIZE_MAX⟩`;
clamping that sentinel against any collection length `L` (a `usize`, so
`L ≤ USIZE_MAX`) yields the full range `[0, L)`, and the handler returns
every record of the store. -/
theorem C6_default_full_range (params : Params) (L : Nat) (qs : List Question)
    (hs : getParam params "start" = none) (he : getParam params "end" = none)
    (hL : L ≤ USIZE_MAX) (hqs : qs.length ≤ USIZE_MAX) :
    extract_pagination params = .ok ⟨0, USIZE_MAX⟩ ∧
    valid_range ⟨0, USIZE_MAX⟩ L = (0, L) ∧
    get_questions params qs = some (.ok qs) := by
  have hext : extract_pagination params = .ok ⟨0, USIZE_MAX⟩ := by
    unfold extract_pagination
    rw [hs, he]
  refine ⟨hext, ?_, ?_⟩
  · simp only [valid_range, Prod.mk.injEq]
    constructor <;> omega
  · simp only [get_questions, hext, valid_range, sliceRange]
    have h0 : (0 : Nat) ⊓ qs.length = 0 := by omega
    have h1 : USIZE_MAX ⊓ qs.length = qs.length := by omega
    simp only [h0, h1]
    rw [if_pos ⟨Nat.zero_le _, Nat.le_refl _⟩]
    simp

/-- Claim C6 witness: empty parameter map, a one-record store, `L = 1`. -/
theorem C6_default_full_range_witness :
    extract_pagination ([] : Params) = .ok ⟨0, USIZE_MAX⟩ ∧
    valid_range ⟨0, USIZE_MAX⟩ 1 = (0, 1) ∧
    get_questions [] [⟨⟨"q1"⟩, "t", "c", none⟩] =
      some (.ok [⟨⟨"q1"⟩, "t", "c", none⟩]) :=
  C6_default_full_range [] 1 [⟨⟨"q1"⟩, "t", "c", none⟩] rfl rfl
    (by decide) (by decide)

/-- Claim C7: `return_error` maps every resolver `Error` to status 416
with the error's `Display` text as body ("Cannot parse parameter: <err>",
"Missing parameter", "Start greater end <pagination Debug>"), maps a CORS
rejection to status 403, and every other rejection to 404 with body
"Route not found". -/
theorem C7_return_error_mapping :
    (∀ e : Error, return_error (.err e) = (416, e.display)) ∧
    (∀ err : ParseIntError,
      (Error.ParseError err).display = "Cannot parse parameter: " ++ err.display) ∧
    Error.MissingParameters.display = "Missing parameter" ∧
    (∀ p : Pagination,
      (Error.StartGreaterThanEnd p).display = "Start greater end " ++ p.debugFmt) ∧
    (∀ msg : String, return_error (.corsForbidden msg) = (403, msg)) ∧
    return_error .other = (404, "Route not found") :=
  ⟨fun _ => rfl, fun _ => rfl, rfl, fun _ => rfl, fun _ => rfl, rfl⟩

/-- Claim C8 counterexample: the derived `Deserialize` for
`QuestionId(String)` performs no validation, so constructing a
`QuestionId` from the empty string SUCCEEDS (the claim says it fails),
yielding a `QuestionId` holding the empty string. -/
theorem C8_empty_id_accepted :
    QuestionId.deserialize "" = .ok ⟨""⟩ := rfl

/-- Claim C8 amended: constructing a `QuestionId` from any string,
including the empty string, succeeds — the derived `Deserialize` enforces
no non-emptiness invariant. -/
theorem C8_deserialize_never_fails (s : String) :
    QuestionId.deserialize s = .ok ⟨s⟩ := rfl

/-- Claim C9: the `GET /questions` handler is a deterministic function of
the store's record enumeration and the query-parameter map: two
invocations with identical inputs produce identical responses
(byte-identical bodies). -/
theorem C9_handler_deterministic (params1 params2 : Params) (qs1 qs2 : List Question)
    (hp : params1 = params2) (hq : qs1 = qs2) :
    handle params1 qs1 = handle params2 qs2 := by
  rw [hp, hq]

/-- Claim C9 witness: two identical concrete invocations. -/
theorem C9_handler_deterministic_witness :
    handle [("start", "0"), ("end", "1")] [⟨⟨"a"⟩, "t", "c", some ["x"]⟩] =
      handle [("start", "0"), ("end", "1")] [⟨⟨"a"⟩, "t", "c", some ["x"]⟩] :=
  C9_handler_deterministic _ _ _ _ rfl rfl

/-- Claim C10: every `Pagination` that `extract_pagination` returns
successfully satisfies `start ≤ end` (the both-present case rejects
`start > end`, the default has `0 ≤ USIZE_MAX`), and `start ≤ end` is
exactly the condition under which `valid_range` yields a well-formed
(lower ≤ upper) range for every collection length. -/
theorem C10_pagination_invariant :
    (∀ (params : Params) (p : Pagination),
        extract_pagination params = .ok p → p.start ≤ p.«end») ∧
    (∀ p : Pagination,
        p.start ≤ p.«end» ↔ ∀ L, (valid_range p L).1 ≤ (valid_range p L).2) := by
  constructor
  · intro params p h
    unfold extract_pagination at h
    split at h
    · split at h
      · exact absurd h (by simp)
      · split at h
        · exact absurd h (by simp)
        · split at h
          · exact absurd h (by simp)
          · injection h with h2
            subst h2
            simpa using by omega
    · injection h with h2
      subst h2
      exact Nat.zero_le _
    · exact absurd h (by simp)
  · intro p
    constructor
    · intro hle L
      simp only [valid_range]
      omega
    · intro hall
      have := hall p.start
      simp only [valid_range] at this
      omega

/-- Claim C10 witness: the invariant at the empty parameter map, and the
well-formedness of the range it induces at `L = 5`. -/
theorem C10_pagination_invariant_witness :
    (Pagination.mk 0 USIZE_MAX).start ≤ (Pagination.mk 0 USIZE_MAX).«end» ∧
    (valid_range ⟨2, 10⟩ 5).1 ≤ (valid_range ⟨2, 10⟩ 5).2 :=
  ⟨C10_pagination_invariant.1 [] ⟨0, USIZE_MAX⟩ rfl,
   (C10_pagination_invariant.2 ⟨2, 10⟩).mp (by decide) 5⟩

end Collab
